import Mathlib

set_option autoImplicit false

/-!
Shallow embedding of `securitybot/tasker/tasker.py`: the `Task` lifecycle
record, the `STATUS_LEVELS` enumeration, and the `Escalation` delayed
notification policy, together with proofs of the specified properties.
-/

namespace SecurityBot

/-- Number of microseconds in one second. -/
def microsPerSecond : Int := 1000000

/-- Number of microseconds in one day. -/
def microsPerDay : Int := 86400000000

/-- Shallow embedding of a Python `datetime`: a clock reading in microseconds
together with whether the value carries timezone information (`tzinfo`). The
code only ever attaches UTC, so a single Boolean flag suffices. -/
structure Datetime where
  micros : Int
  aware : Bool
deriving DecidableEq

/-- Message of the `ValueError` raised by `pytz.utc.localize` on an aware
datetime. -/
def valueErrorMsg : String := "ValueError: Not naive datetime (tzinfo is already set)"

/-- Message of the `AttributeError` raised when `pytz.utc.localize` is applied
to `None`. -/
def attributeErrorMsg : String := "AttributeError: NoneType object has no attribute tzinfo"

/-- Embedding of `pytz.utc.localize`: attaches UTC to a naive datetime and
raises `ValueError` when `tzinfo` is already set. -/
def pytz_utc_localize (d : Datetime) : Except String Datetime :=
  if d.aware then Except.error valueErrorMsg
  else Except.ok { d with aware := true }

/-- Shallow embedding of a Python `timedelta` by its total signed duration in
microseconds. Python normalizes a timedelta into days, seconds and
microseconds with `0 <= seconds < 86400`; the `seconds` attribute is recovered
below with `%` and `/` on `Int` (Euclidean), which agree with the Python floor
semantics on the positive divisors involved. -/
structure Timedelta where
  micros : Int
deriving DecidableEq

/-- The `seconds` attribute of a Python timedelta: whole seconds within the
day, always in `[0, 86400)`. -/
def Timedelta.seconds (t : Timedelta) : Int :=
  t.micros % microsPerDay / microsPerSecond

/-- A timedelta of a whole number of seconds. -/
def Timedelta.ofSeconds (s : Int) : Timedelta :=
  ⟨s * microsPerSecond⟩

/-- Adding a whole number of days to a timedelta. -/
def Timedelta.addDays (t : Timedelta) (k : Int) : Timedelta :=
  ⟨t.micros + k * microsPerDay⟩

/-- The total duration of a timedelta in whole seconds, as in
`timedelta.total_seconds()`. This is the reading of elapsed time used by the
specification sentence behind C1, as opposed to the `seconds` attribute that
the code actually consults. -/
def Timedelta.total_seconds (t : Timedelta) : Int :=
  t.micros / microsPerSecond

/-- Modelled from the spec: `STATUS_LEVELS = enum('OPEN', 'INPROGRESS',
'VERIFICATION')` is built with the helper `securitybot.util.enum`, whose
source is not part of this fragment; the spec describes the result as a closed
set of three distinguishable symbolic values with stable identity for equality
comparison. -/
inductive STATUS_LEVELS where
  | OPEN
  | INPROGRESS
  | VERIFICATION
deriving DecidableEq, BEq

/-- Embedding of the `Escalation` state: `ldap`, `delay_in_sec`, and the
private `_notified_at` timestamp, which is `None` until notification. -/
structure Escalation where
  ldap : String
  delay_in_sec : Int
  _notified_at : Option Datetime
deriving DecidableEq

/-- Embedding of `Escalation.__init__`: stores `ldap` and `delay_in_sec`
unvalidated and localizes a supplied `notified_at` to UTC, storing `None`
otherwise. A Python `datetime` is always truthy, so `if notified_at` is an
is-not-None test; an aware `notified_at` propagates the `ValueError` from
`pytz.utc.localize`. -/
def Escalation.init (ldap : String) (delay_in_sec : Int)
    (notified_at : Option Datetime) : Except String Escalation :=
  match notified_at with
  | none => Except.ok ⟨ldap, delay_in_sec, none⟩
  | some d => (pytz_utc_localize d).map fun d2 => ⟨ldap, delay_in_sec, some d2⟩

/-- Embedding of `Escalation.is_notified`: `self._notified_at is not None`. -/
def Escalation.is_notified (e : Escalation) : Bool :=
  e._notified_at.isSome

/-- Embedding of `Escalation.set_notified`: stores the current UTC time,
`datetime.now(tz=pytz.utc)`; since the embedding is pure, the wall-clock
reading is supplied by the caller as `now`. -/
def Escalation.set_notified (e : Escalation) (now : Int) : Escalation :=
  { e with _notified_at := some ⟨now, true⟩ }

/-- Embedding of `Escalation.should_notify`:
`not self.is_notified() and elapsed_timedelta.seconds > self.delay_in_sec`. -/
def Escalation.should_notify (e : Escalation) (elapsed_timedelta : Timedelta) : Bool :=
  !e.is_notified && decide (elapsed_timedelta.seconds > e.delay_in_sec)

/-- An observable operation on an `Escalation`, used to state temporal claims
about arbitrary call sequences: `is_notified` and `should_notify` are pure
queries, `set_notified` is the only mutator. -/
inductive EscOp where
  | isNotifiedCall
  | shouldNotifyCall (elapsed : Timedelta)
  | setNotifiedCall (now : Int)

/-- State change caused by one operation: only `set_notified` mutates. -/
def EscOp.apply : EscOp → Escalation → Escalation
  | EscOp.isNotifiedCall, e => e
  | EscOp.shouldNotifyCall _, e => e
  | EscOp.setNotifiedCall now, e => e.set_notified now

/-- Running a sequence of operations from left to right. -/
def runEscOps : List EscOp → Escalation → Escalation
  | [], e => e
  | o :: ops, e => runEscOps ops (o.apply e)

/-- Embedding of the `Task` attribute record assigned by `Task.__init__`. -/
structure Task where
  title : String
  username : String
  reason : String
  description : String
  url : String
  performed : Bool
  comment : String
  authenticated : Bool
  status : STATUS_LEVELS
  event_time : Datetime
  escalation : Option Escalation
deriving DecidableEq

/-- Embedding of `Task.__init__`: stores the attributes and normalizes
`event_time` with `pytz.utc.localize(event_time)`. When `event_time` is absent
(the `None` default), accessing `None.tzinfo` raises `AttributeError`; when it
is already timezone-aware, `localize` raises `ValueError`. -/
def Task.init (title username reason description url : String)
    (performed : Bool) (comment : String) (authenticated : Bool)
    (status : STATUS_LEVELS) (event_time : Option Datetime)
    (escalation : Option Escalation) : Except String Task :=
  match event_time with
  | none => Except.error attributeErrorMsg
  | some d =>
    (pytz_utc_localize d).map fun d2 =>
      ⟨title, username, reason, description, url, performed, comment,
        authenticated, status, d2, escalation⟩

/-- Embedding of `Task.is_open`: `self.status == STATUS_LEVELS.OPEN`. -/
def Task.is_open (t : Task) : Bool :=
  t.status == STATUS_LEVELS.OPEN

/-- Embedding of `Task.is_in_progress`:
`self.status == STATUS_LEVELS.INPROGRESS`. -/
def Task.is_in_progress (t : Task) : Bool :=
  t.status == STATUS_LEVELS.INPROGRESS

/-- Embedding of `Task.is_verifying`:
`self.status == STATUS_LEVELS.VERIFICATION`. -/
def Task.is_verifying (t : Task) : Bool :=
  t.status == STATUS_LEVELS.VERIFICATION

/-- Modelled from the spec: `Task.set_open` is abstract in this fragment (its
concrete body lives in a storage-backed subclass that is not under src/); the
spec says it transitions `status` to OPEN. -/
def Task.set_open (t : Task) : Task :=
  { t with status := STATUS_LEVELS.OPEN }

/-- Modelled from the spec: `Task.set_in_progress` is abstract in this
fragment; the spec says it transitions `status` to IN_PROGRESS. -/
def Task.set_in_progress (t : Task) : Task :=
  { t with status := STATUS_LEVELS.INPROGRESS }

/-- Modelled from the spec: `Task.set_verifying` is abstract in this fragment;
the spec says it transitions `status` to VERIFICATION. -/
def Task.set_verifying (t : Task) : Task :=
  { t with status := STATUS_LEVELS.VERIFICATION }

/-- A Python attribute value, for describing `self.__dict__`. -/
inductive PyValue where
  | str (s : String)
  | bool (b : Bool)
  | status (s : STATUS_LEVELS)
  | dt (d : Datetime)
  | esc (e : Option Escalation)
deriving DecidableEq

/-- Embedding of `Task.__str__`, which returns `str(self.__dict__)`: after
`__init__` the attribute dictionary holds exactly the eleven attributes
assigned there, in assignment order, so the printed representation is the
rendering of this association list. -/
def Task.dict (t : Task) : List (String × PyValue) :=
  [("title", PyValue.str t.title),
   ("username", PyValue.str t.username),
   ("reason", PyValue.str t.reason),
   ("description", PyValue.str t.description),
   ("url", PyValue.str t.url),
   ("performed", PyValue.bool t.performed),
   ("comment", PyValue.str t.comment),
   ("authenticated", PyValue.bool t.authenticated),
   ("status", PyValue.status t.status),
   ("event_time", PyValue.dt t.event_time),
   ("escalation", PyValue.esc t.escalation)]

/-- Sample string used by concrete witnesses. -/
def alice : String := "alice"

/-- The `seconds` attribute of a timedelta is never negative. -/
theorem Timedelta.seconds_nonneg (t : Timedelta) : 0 ≤ t.seconds := by
  have h1 : (0 : Int) ≤ t.micros % microsPerDay :=
    Int.emod_nonneg _ (by decide)
  exact Int.ediv_nonneg h1 (by decide)

/-- Adding whole days to a timedelta leaves its `seconds` attribute
unchanged. -/
theorem Timedelta.seconds_addDays (t : Timedelta) (k : Int) :
    (t.addDays k).seconds = t.seconds := by
  unfold Timedelta.addDays Timedelta.seconds
  simp [Int.add_mul_emod_self]

/-- One operation preserves the notified flag of an escalation. -/
theorem EscOp.apply_preserves_notified (o : EscOp) (e : Escalation)
    (h : e.is_notified = true) : (o.apply e).is_notified = true := by
  cases o <;>
    simp_all [EscOp.apply, Escalation.set_notified, Escalation.is_notified]

/-- Any sequence of operations preserves the notified flag. -/
theorem runEscOps_preserves_notified (ops : List EscOp) (e : Escalation)
    (h : e.is_notified = true) : (runEscOps ops e).is_notified = true := by
  induction ops generalizing e with
  | nil => exact h
  | cons o rest ih => exact ih _ (EscOp.apply_preserves_notified o e h)

/-- C1 counterexample: an unnotified escalation with `delay_in_sec = 0` and an
elapsed duration of exactly two days has elapsed time (172800 s) strictly
exceeding the delay, yet `should_notify` returns false, because the code
consults the `seconds` attribute of the timedelta (seconds within the day,
here 0) rather than the total elapsed duration. -/
theorem C1_counterexample :
    Escalation.is_notified ⟨"alice", 0, none⟩ = false ∧
    (Timedelta.ofSeconds 172800).total_seconds > Escalation.delay_in_sec ⟨"alice", 0, none⟩ ∧
    Escalation.should_notify ⟨"alice", 0, none⟩ (Timedelta.ofSeconds 172800) = false :=
  ⟨rfl, by decide, rfl⟩

/-- C1 (amended): `should_notify(elapsed)` returns true iff the escalation has
not been notified and the `seconds` attribute of `elapsed` — its
seconds-within-a-day component — strictly exceeds `delay_in_sec`. For the
tested delays D in 0, 1, 3600 and boundary elapsed values D-1, D, D+1, with
elapsed restricted to non-negative durations, the result is false when
elapsed <= D and true when elapsed > D; in the one negative boundary case,
D = 0 with elapsed = -1 seconds, the result is true, since a negative
timedelta normalizes to a `seconds` attribute of 86399. -/
theorem C1_should_notify_iff :
    (∀ (e : Escalation) (td : Timedelta),
      e.should_notify td =
        (!e.is_notified && decide (td.seconds > e.delay_in_sec))) ∧
    (∀ l : String,
      (Escalation.mk l 0 none).should_notify (Timedelta.ofSeconds 0) = false ∧
      (Escalation.mk l 0 none).should_notify (Timedelta.ofSeconds 1) = true ∧
      (Escalation.mk l 0 none).should_notify (Timedelta.ofSeconds (-1)) = true ∧
      (Escalation.mk l 1 none).should_notify (Timedelta.ofSeconds 0) = false ∧
      (Escalation.mk l 1 none).should_notify (Timedelta.ofSeconds 1) = false ∧
      (Escalation.mk l 1 none).should_notify (Timedelta.ofSeconds 2) = true ∧
      (Escalation.mk l 3600 none).should_notify (Timedelta.ofSeconds 3599) = false ∧
      (Escalation.mk l 3600 none).should_notify (Timedelta.ofSeconds 3600) = false ∧
      (Escalation.mk l 3600 none).should_notify (Timedelta.ofSeconds 3601) = true) :=
  ⟨fun _ _ => rfl,
   fun _ => ⟨rfl, rfl, rfl, rfl, rfl, rfl, rfl, rfl, rfl⟩⟩

/-- C2: constructing a Task without supplying an `event_time` fails
immediately — `pytz.utc.localize(None)` raises an `AttributeError` — so no
Task object is produced; in this embedding every constructed Task carries a
(non-optional) `event_time`. -/
theorem C2_no_event_time_fails
    (title username reason description url : String) (performed : Bool)
    (comment : String) (authenticated : Bool) (status : STATUS_LEVELS)
    (escalation : Option Escalation) :
    Task.init title username reason description url performed comment
      authenticated status none escalation = Except.error attributeErrorMsg :=
  rfl

/-- C3: for every unnotified escalation, `should_notify` depends only on the
seconds-within-a-day component of the elapsed timedelta: adding any whole
number of days leaves the result unchanged, and an elapsed of exactly 2 days
yields false for any non-negative `delay_in_sec`. -/
theorem C3_day_component_irrelevant (e : Escalation)
    (h : e.is_notified = false) :
    (∀ (td : Timedelta) (k : Int),
      e.should_notify (td.addDays k) = e.should_notify td) ∧
    (0 ≤ e.delay_in_sec →
      e.should_notify (Timedelta.ofSeconds 172800) = false) := by
  constructor
  · intro td k
    simp [Escalation.should_notify, Timedelta.seconds_addDays]
  · intro hd
    have hs : (Timedelta.ofSeconds 172800).seconds = 0 := by decide
    simp [Escalation.should_notify, h, hs]
    omega

/-- Witness for C3 at a concrete unnotified escalation. -/
theorem C3_witness :
    Escalation.is_notified ⟨"alice", 60, none⟩ = false ∧
    ((∀ (td : Timedelta) (k : Int),
      Escalation.should_notify ⟨"alice", 60, none⟩ (td.addDays k) =
        Escalation.should_notify ⟨"alice", 60, none⟩ td) ∧
     ((0 : Int) ≤ 60 →
      Escalation.should_notify ⟨"alice", 60, none⟩
        (Timedelta.ofSeconds 172800) = false)) :=
  ⟨rfl, C3_day_component_irrelevant ⟨"alice", 60, none⟩ rfl⟩

/-- C4: for every Task — whose status in this closed model is always one of
the three defined values — exactly one of `is_open`, `is_in_progress`,
`is_verifying` returns true: the three predicates are mutually exclusive and
collectively exhaustive. -/
theorem C4_status_predicates_partition (t : Task) :
    (t.is_open = true ∧ t.is_in_progress = false ∧ t.is_verifying = false) ∨
    (t.is_open = false ∧ t.is_in_progress = true ∧ t.is_verifying = false) ∨
    (t.is_open = false ∧ t.is_in_progress = false ∧ t.is_verifying = true) := by
  rcases t with ⟨_, _, _, _, _, _, _, _, s, _, _⟩
  cases s with
  | OPEN => exact Or.inl ⟨rfl, rfl, rfl⟩
  | INPROGRESS => exact Or.inr (Or.inl ⟨rfl, rfl, rfl⟩)
  | VERIFICATION => exact Or.inr (Or.inr ⟨rfl, rfl, rfl⟩)

/-- C5: after `set_notified`, `is_notified` is true and remains true under any
further sequence of operations, and every subsequent `should_notify` call
returns false for every elapsed value, even one exceeding `delay_in_sec`. -/
theorem C5_notified_never_escalates (e : Escalation) (now : Int)
    (ops : List EscOp) (td : Timedelta) :
    (runEscOps ops (e.set_notified now)).is_notified = true ∧
    (runEscOps ops (e.set_notified now)).should_notify td = false := by
  have h2 : (runEscOps ops (e.set_notified now)).is_notified = true :=
    runEscOps_preserves_notified ops _ rfl
  exact ⟨h2, by simp [Escalation.should_notify, h2]⟩

/-- C6 counterexample: an unnotified escalation with `delay_in_sec = 0` is
not permanently escalating: at an elapsed duration of exactly 0 seconds,
`should_notify` returns false, since the strict comparison 0 > 0 fails. -/
theorem C6_counterexample :
    Escalation.delay_in_sec ⟨"alice", 0, none⟩ = 0 ∧
    Escalation.is_notified ⟨"alice", 0, none⟩ = false ∧
    Escalation.should_notify ⟨"alice", 0, none⟩ (Timedelta.ofSeconds 0) = false :=
  ⟨rfl, rfl, rfl⟩

/-- C6 (amended): constructing an Escalation with a negative or zero
`delay_in_sec` succeeds (is not rejected). For a strictly negative delay an
unnotified escalation returns true from `should_notify` for every elapsed
duration until `set_notified` is called; for a zero delay it returns true
exactly for the elapsed durations whose seconds-within-a-day component is
positive — in particular false at an elapsed of exactly 0 seconds. -/
theorem C6_degenerate_delay (ldap : String) (d : Int) (_hd : d ≤ 0) :
    Escalation.init ldap d none = Except.ok ⟨ldap, d, none⟩ ∧
    (d < 0 → ∀ td : Timedelta,
      (Escalation.mk ldap d none).should_notify td = true) ∧
    (∀ td : Timedelta,
      (Escalation.mk ldap 0 none).should_notify td =
        decide (0 < td.seconds)) := by
  refine ⟨rfl, ?_, fun td => rfl⟩
  intro hneg td
  simp [Escalation.should_notify, Escalation.is_notified]
  exact lt_of_lt_of_le hneg (Timedelta.seconds_nonneg td)

/-- Witness for C6 at delay -5. -/
theorem C6_witness :
    (-5 : Int) ≤ 0 ∧
    (Escalation.init alice (-5) none = Except.ok ⟨alice, -5, none⟩ ∧
     ((-5 : Int) < 0 → ∀ td : Timedelta,
       (Escalation.mk alice (-5) none).should_notify td = true) ∧
     (∀ td : Timedelta,
       (Escalation.mk alice 0 none).should_notify td =
         decide (0 < td.seconds))) :=
  ⟨by decide, C6_degenerate_delay alice (-5) (by decide)⟩

/-- C7: each transition operation leaves the status equal to the
corresponding enum value, so `set_open` followed by `is_open` returns true,
and likewise for `set_in_progress`/`is_in_progress` and
`set_verifying`/`is_verifying`. -/
theorem C7_transitions_set_status (t : Task) :
    (t.set_open).is_open = true ∧
    (t.set_in_progress).is_in_progress = true ∧
    (t.set_verifying).is_verifying = true :=
  ⟨rfl, rfl, rfl⟩

/-- C8: the notified timestamp is monotonic: under any sequence of the
operations `is_notified`, `should_notify` and `set_notified`, once
`is_notified` is true it never becomes false again — the timestamp is never
cleared back to unset. -/
theorem C8_notified_monotonic (e : Escalation) (ops : List EscOp)
    (h : e.is_notified = true) :
    (runEscOps ops e).is_notified = true :=
  runEscOps_preserves_notified ops e h

/-- Witness for C8 at a concrete notified escalation and call sequence. -/
theorem C8_witness :
    Escalation.is_notified ⟨"alice", 60, some ⟨0, true⟩⟩ = true ∧
    (runEscOps
      [EscOp.isNotifiedCall, EscOp.shouldNotifyCall (Timedelta.ofSeconds 5),
       EscOp.setNotifiedCall 7, EscOp.isNotifiedCall]
      ⟨"alice", 60, some ⟨0, true⟩⟩).is_notified = true :=
  ⟨rfl, C8_notified_monotonic ⟨"alice", 60, some ⟨0, true⟩⟩
    [EscOp.isNotifiedCall, EscOp.shouldNotifyCall (Timedelta.ofSeconds 5),
     EscOp.setNotifiedCall 7, EscOp.isNotifiedCall] rfl⟩

/-- C9: for every successfully constructed Task, the attribute dictionary
printed by `__str__` is exactly the eleven attributes set at construction —
title, username, reason, description, url, performed, comment, authenticated,
status, event_time (localized to UTC) and escalation — with no omissions and
no redaction. -/
theorem C9_dump_includes_all_attributes
    (title username reason description url : String) (performed : Bool)
    (comment : String) (authenticated : Bool) (status : STATUS_LEVELS)
    (et : Int) (escalation : Option Escalation) :
    (Task.init title username reason description url performed comment
        authenticated status (some ⟨et, false⟩) escalation).map Task.dict =
      Except.ok
        [("title", PyValue.str title),
         ("username", PyValue.str username),
         ("reason", PyValue.str reason),
         ("description", PyValue.str description),
         ("url", PyValue.str url),
         ("performed", PyValue.bool performed),
         ("comment", PyValue.str comment),
         ("authenticated", PyValue.bool authenticated),
         ("status", PyValue.status status),
         ("event_time", PyValue.dt ⟨et, true⟩),
         ("escalation", PyValue.esc escalation)] :=
  rfl

/-- C10: constructing a Task with a timezone-aware `event_time` raises: the
unconditional `pytz.utc.localize` accepts only naive timestamps and raises
`ValueError` on an already-zoned one. -/
theorem C10_aware_event_time_rejected
    (title username reason description url : String) (performed : Bool)
    (comment : String) (authenticated : Bool) (status : STATUS_LEVELS)
    (d : Datetime) (hd : d.aware = true) (escalation : Option Escalation) :
    Task.init title username reason description url performed comment
      authenticated status (some d) escalation =
      Except.error valueErrorMsg := by
  simp [Task.init, pytz_utc_localize, hd, Except.map]

/-- Witness for C10 at a concrete aware datetime. -/
theorem C10_witness :
    (Datetime.mk 0 true).aware = true ∧
    Task.init alice alice alice alice alice false alice false
      STATUS_LEVELS.OPEN (some ⟨0, true⟩) none = Except.error valueErrorMsg :=
  ⟨rfl, C10_aware_event_time_rejected alice alice alice alice alice false
    alice false STATUS_LEVELS.OPEN ⟨0, true⟩ rfl none⟩

end SecurityBot
